import Mathlib

/-!
Verification of the scroll-progress choreography logic of the
Self-Reliance magazine repository.

The embedding models the arithmetic actually performed by the page
components.  JavaScript number semantics matter for several claims
(division by zero yields Infinity or NaN, and `Math.min`/`Math.max`
propagate NaN), so computations whose divisor can vanish are embedded
into a value type `JSVal` that carries NaN and the two infinities over
exact rationals.  All measured quantities (element heights, viewport
size, scroll offsets) are taken as rationals.
-/

/-- A JavaScript number: NaN, +Infinity (`inf true`), -Infinity
(`inf false`), or a finite value idealised as a rational. -/
inductive JSVal where
  | nan : JSVal
  | inf : Bool → JSVal
  | fin : ℚ → JSVal
deriving DecidableEq, Repr

/-- JavaScript division of two finite numbers: division by (positive)
zero gives NaN for a zero numerator and a signed infinity otherwise. -/
def jsDiv (a b : ℚ) : JSVal :=
  if b = 0 then
    (if a = 0 then .nan else if 0 < a then .inf true else .inf false)
  else .fin (a / b)

/-- `Math.min` on JS values: NaN-propagating minimum. -/
def jsMin : JSVal → JSVal → JSVal
  | .nan, _ => .nan
  | _, .nan => .nan
  | .inf true, y => y
  | .inf false, _ => .inf false
  | .fin a, .inf true => .fin a
  | .fin _, .inf false => .inf false
  | .fin a, .fin b => .fin (min a b)

/-- `Math.max` on JS values: NaN-propagating maximum. -/
def jsMax : JSVal → JSVal → JSVal
  | .nan, _ => .nan
  | _, .nan => .nan
  | .inf true, _ => .inf true
  | .inf false, y => y
  | .fin _, .inf true => .inf true
  | .fin a, .inf false => .fin a
  | .fin a, .fin b => .fin (max a b)

/-- JS subtraction with one possibly non-finite operand. -/
def jsSub : JSVal → JSVal → JSVal
  | .nan, _ => .nan
  | _, .nan => .nan
  | .fin a, .fin b => .fin (a - b)
  | .fin _, .inf b => .inf (!b)
  | .inf a, .fin _ => .inf a
  | .inf a, .inf b => if a = b then .nan else .inf a

/-- Rational clamp to the unit interval, `max 0 (min 1 x)` as written in
the source (`Math.max(0, Math.min(1, x))`). -/
def clampQ (x : ℚ) : ℚ := max 0 (min 1 x)

/-- Distance-policy progress as computed by `useStickyFadeOut`
(src/src/sections/LeadTextSection.jsx, lines 21-24) and by
`LightMetaphorSection.handleScroll`:
`scrollableDistance = rect.height - window.innerHeight`,
`scrolled = -rect.top`,
`progress = Math.max(0, Math.min(1, scrolled / scrollableDistance))`.
There is no guard on the sign of `scrollableDistance`. -/
def useStickyFadeOutProgress (height vh top : ℚ) : JSVal :=
  jsMax (.fin 0) (jsMin (.fin 1) (jsDiv (-top) (height - vh)))

/-- Entry/threshold-policy progress as computed by
`ScrollRevealText.updateProgress`
(src/src/components/kinetic-typography/ScrambleText.jsx, lines 221-236):
`start = windowHeight * 0.8`, `end = -rect.height * 0.3`,
`newProgress = (start - current) / (start - end)`, then clamped with
`Math.max(0, Math.min(1, newProgress))`. -/
def updateProgress (height vh top : ℚ) : JSVal :=
  jsMax (.fin 0)
    (jsMin (.fin 1) (jsDiv (vh * (8/10) - top) (vh * (8/10) - (-height * (3/10)))))

lemma clampQ_nonneg (x : ℚ) : 0 ≤ clampQ x := le_max_left _ _

lemma clampQ_le_one (x : ℚ) : clampQ x ≤ 1 :=
  max_le (by norm_num) (min_le_left _ _)

lemma clampQ_mono {x y : ℚ} (h : x ≤ y) : clampQ x ≤ clampQ y :=
  max_le_max le_rfl (min_le_min le_rfl h)

/-- For a region strictly taller than the viewport the distance-policy
division is by a nonzero quantity and the result is the finite clamp. -/
lemma useStickyFadeOutProgress_eq_clamp {height vh : ℚ} (top : ℚ)
    (hlt : vh < height) :
    useStickyFadeOutProgress height vh top = .fin (clampQ ((-top) / (height - vh))) := by
  have hne : height - vh ≠ 0 := sub_ne_zero.mpr (ne_of_gt hlt)
  simp [useStickyFadeOutProgress, jsDiv, hne, jsMin, jsMax, clampQ]

/-- When the entry-policy divisor `0.8*vh + 0.3*height` is positive the
result is the finite clamp of the linear map of `top`. -/
lemma updateProgress_eq_clamp {height vh : ℚ} (top : ℚ)
    (hpos : 0 < vh * (8/10) + height * (3/10)) :
    updateProgress height vh top
      = .fin (clampQ ((vh * (8/10) - top) / (vh * (8/10) + height * (3/10)))) := by
  have harg : vh * (8/10) - (-height * (3/10)) = vh * (8/10) + height * (3/10) := by ring
  have hne : vh * (8/10) + height * (3/10) ≠ 0 := ne_of_gt hpos
  simp only [updateProgress, jsDiv, harg]
  simp [hne, jsMin, jsMax, clampQ]

/-- Claim C1 (counterexample): the specified degenerate-range guard does
not exist.  For a region measured exactly as tall as the viewport
(height = viewportHeight = 800, so scrollable distance = 0) and scroll
offset such that top = 0, the distance-policy computation divides 0 by 0
and the progress is NaN, not 0. -/
theorem distance_degenerate_cex :
    (800 : ℚ) ≤ 800 ∧
    useStickyFadeOutProgress 800 800 0 = JSVal.nan ∧
    useStickyFadeOutProgress 800 800 0 ≠ JSVal.fin 0 := by
  refine ⟨le_rfl, ?_, ?_⟩ <;> simp [useStickyFadeOutProgress, jsDiv, jsMin, jsMax]

/-- Claim C1 (amended): for a region measured exactly as tall as the
viewport the code divides by zero with no guard: the distance-policy
progress is NaN when top = 0, pinned to 1 (not 0) when top < 0 (region
scrolled past), and 0 only when top > 0. -/
theorem distance_degenerate_amended (vh top : ℚ) :
    useStickyFadeOutProgress vh vh top =
      (if top = 0 then JSVal.nan else if top < 0 then JSVal.fin 1 else JSVal.fin 0) := by
  have hz : vh - vh = 0 := sub_self vh
  by_cases h0 : top = 0
  · simp [useStickyFadeOutProgress, jsDiv, hz, h0, jsMin, jsMax]
  · by_cases hneg : top < 0
    · have hpos : 0 < -top := by linarith
      simp [useStickyFadeOutProgress, jsDiv, hz, h0, hneg, neg_eq_zero, hpos,
        jsMin, jsMax]
    · have hpos : 0 < top := lt_of_le_of_ne (not_lt.mp hneg) (Ne.symm h0)
      have hn : ¬ (0 < -top) := by linarith
      simp [useStickyFadeOutProgress, jsDiv, hz, h0, hneg, neg_eq_zero, hn,
        jsMin, jsMax]

/-- Claim C2: for every region measured strictly taller than the
viewport, the distance-policy progress equals
clamp((-top) / (height - viewportHeight), 0, 1). -/
theorem distance_formula (height vh top : ℚ) (hlt : vh < height) :
    useStickyFadeOutProgress height vh top
      = .fin (clampQ ((-top) / (height - vh))) :=
  useStickyFadeOutProgress_eq_clamp top hlt

/-- Claim C2 (witness): region height 2000, viewport height 800, scroll
offset 600 (top = -600) gives progress exactly 1/2. -/
theorem distance_formula_witness :
    (800 : ℚ) < 2000 ∧ useStickyFadeOutProgress 2000 800 (-600) = .fin (1/2) := by
  refine ⟨by norm_num, ?_⟩
  rw [distance_formula 2000 800 (-600) (by norm_num)]
  norm_num [clampQ]

/-- Claim C7 (counterexample): the entry/threshold output is not always
in [0,1].  With region height 0, viewport height 0 and top 0 the divisor
`entryStart - entryEnd = 0.8*0 + 0.3*0` is zero and the numerator is
zero, so the computation yields NaN, which is not a finite value in
[0,1]. -/
theorem entry_formula_cex :
    updateProgress 0 0 0 = JSVal.nan ∧
    ¬ ∃ q : ℚ, updateProgress 0 0 0 = JSVal.fin q ∧ 0 ≤ q ∧ q ≤ 1 := by
  constructor
  · simp [updateProgress, jsDiv, jsMin, jsMax]
  · rintro ⟨q, hq, -, -⟩
    simp [updateProgress, jsDiv, jsMin, jsMax] at hq

/-- Claim C7 (amended): whenever the divisor
`entryStart - entryEnd = 0.8*viewportHeight + 0.3*height` is positive
(in particular for every region with nonnegative height in a viewport of
positive height), the entry/threshold progress equals
clamp((entryStart - top) / (entryStart - entryEnd), 0, 1) with
entryStart = 0.8*viewportHeight and entryEnd = -0.3*height, and the
output lies in [0,1]. -/
theorem entry_formula (height vh top : ℚ)
    (hpos : 0 < vh * (8/10) + height * (3/10)) :
    updateProgress height vh top
      = .fin (clampQ ((vh * (8/10) - top) / (vh * (8/10) + height * (3/10)))) ∧
    0 ≤ clampQ ((vh * (8/10) - top) / (vh * (8/10) + height * (3/10))) ∧
    clampQ ((vh * (8/10) - top) / (vh * (8/10) + height * (3/10))) ≤ 1 :=
  ⟨updateProgress_eq_clamp top hpos, clampQ_nonneg _, clampQ_le_one _⟩

/-- Claim C7 (witness): height 1000, viewport 800, top 400 gives divisor
940 and progress (640 - 400) / 940 = 12/47, inside [0,1]. -/
theorem entry_formula_witness :
    (0 : ℚ) < 800 * (8/10) + 1000 * (3/10) ∧
    updateProgress 1000 800 400 = .fin (12/47) := by
  refine ⟨by norm_num, ?_⟩
  rw [(entry_formula 1000 800 400 (by norm_num)).1]
  norm_num [clampQ]

/-- Claim C6 (counterexample): progress is not monotonic non-decreasing
in the scroll offset for every region geometry.  For a region of height
700 in a viewport of height 800 (scrollable distance -100), scrolling
from offset 0 (top = 50) to offset 50 (top = 0) makes the
distance-policy progress drop from 1/2 to 0. -/
theorem progress_monotone_cex :
    (0 : ℚ) ≤ 50 ∧
    useStickyFadeOutProgress 700 800 (50 - 0) = JSVal.fin (1/2) ∧
    useStickyFadeOutProgress 700 800 (50 - 50) = JSVal.fin 0 ∧
    ¬ ((1 : ℚ)/2 ≤ 0) := by
  refine ⟨by norm_num, ?_, ?_, by norm_num⟩ <;>
    · simp [useStickyFadeOutProgress, jsDiv, jsMin, jsMax]
      norm_num

/-- Claim C6 (amended): progress is monotonic non-decreasing in the
scroll offset for both mapping policies on non-degenerate geometry:
for the distance policy whenever the region is strictly taller than the
viewport, and for the entry/threshold policy whenever the divisor
`0.8*viewportHeight + 0.3*height` is positive.  The element top under
scroll offset `s` is `top0 - s`. -/
theorem progress_monotone (height vh top0 s1 s2 : ℚ) (hs : s1 ≤ s2) :
    (vh < height → ∃ p1 p2 : ℚ,
      useStickyFadeOutProgress height vh (top0 - s1) = .fin p1 ∧
      useStickyFadeOutProgress height vh (top0 - s2) = .fin p2 ∧ p1 ≤ p2) ∧
    (0 < vh * (8/10) + height * (3/10) → ∃ p1 p2 : ℚ,
      updateProgress height vh (top0 - s1) = .fin p1 ∧
      updateProgress height vh (top0 - s2) = .fin p2 ∧ p1 ≤ p2) := by
  constructor
  · intro hlt
    refine ⟨_, _, useStickyFadeOutProgress_eq_clamp _ hlt,
      useStickyFadeOutProgress_eq_clamp _ hlt, clampQ_mono ?_⟩
    have hd : 0 < height - vh := sub_pos.mpr hlt
    have hnum : -(top0 - s1) ≤ -(top0 - s2) := by linarith
    exact div_le_div_of_nonneg_right hnum hd.le |>.trans_eq rfl
  · intro hpos
    refine ⟨_, _, updateProgress_eq_clamp _ hpos,
      updateProgress_eq_clamp _ hpos, clampQ_mono ?_⟩
    have hnum : vh * (8/10) - (top0 - s1) ≤ vh * (8/10) - (top0 - s2) := by linarith
    exact div_le_div_of_nonneg_right hnum hpos.le |>.trans_eq rfl

/-- Claim C6 (witness): height 2000, viewport 800, top0 = 0; scrolling
from offset 100 to 200 gives non-decreasing finite progress under both
policies. -/
theorem progress_monotone_witness :
    (∃ p1 p2 : ℚ,
      useStickyFadeOutProgress 2000 800 (0 - 100) = .fin p1 ∧
      useStickyFadeOutProgress 2000 800 (0 - 200) = .fin p2 ∧ p1 ≤ p2) ∧
    (∃ p1 p2 : ℚ,
      updateProgress 2000 800 (0 - 100) = .fin p1 ∧
      updateProgress 2000 800 (0 - 200) = .fin p2 ∧ p1 ≤ p2) :=
  ⟨(progress_monotone 2000 800 0 100 200 (by norm_num)).1 (by norm_num),
   (progress_monotone 2000 800 0 100 200 (by norm_num)).2 (by norm_num)⟩

/-!
PhaseSequencer of `VariantsSpaceSection`
(src/src/sections/HeroSection.jsx, lines 316-392).  The phase
boundaries are computed from the measured convergence height `ch`
(one viewport height), horizontal scroll distance `s`, gap width `g`
and first-card width `c`; the scroll handler then selects a phase for
the overall progress `v` by an if/else-if chain.
-/

/-- `convergenceRatio = totalScrollable > 0 ? convergenceHeight /
totalScrollable : 0` with `totalScrollable = convergenceHeight +
scrollDistance`. -/
def convergenceRatio (ch s : ℚ) : ℚ :=
  if 0 < ch + s then ch / (ch + s) else 0

/-- `cardEnterRatio = scrollDistance > 0 ? convergenceRatio +
(gapWidth / scrollDistance) * (1 - convergenceRatio) :
convergenceRatio`. -/
def cardEnterRatio (ch s g : ℚ) : ℚ :=
  if 0 < s then convergenceRatio ch s + (g / s) * (1 - convergenceRatio ch s)
  else convergenceRatio ch s

/-- `cardFullRatio = scrollDistance > 0 ? convergenceRatio +
((gapWidth + cardWidth) / scrollDistance) * (1 - convergenceRatio) :
convergenceRatio`. -/
def cardFullRatio (ch s g c : ℚ) : ℚ :=
  if 0 < s then convergenceRatio ch s + ((g + c) / s) * (1 - convergenceRatio ch s)
  else convergenceRatio ch s

/-- `card10Ratio = cardEnterRatio + (cardFullRatio - cardEnterRatio) *
0.1`. -/
def card10Ratio (ch s g c : ℚ) : ℚ :=
  cardEnterRatio ch s g + (cardFullRatio ch s g c - cardEnterRatio ch s g) * (1/10)

/-- `slideUpEndRatio = Math.min(1, card10Ratio + (1 - card10Ratio) *
0.15)`. -/
def slideUpEndRatio (ch s g c : ℚ) : ℚ :=
  min 1 (card10Ratio ch s g c + (1 - card10Ratio ch s g c) * (15/100))

/-- Which branch of the scroll handler's if/else-if chain handles
progress `v`: 0 for `v <= convergenceRatio` (sphere converging), 1 for
`convergenceRatio < v <= card10Ratio` (sphere scattering), 2 otherwise
(fully scattered). -/
def activeScrollBranch (cr c10 v : ℚ) : ℕ :=
  if v ≤ cr then 0 else if v ≤ c10 then 1 else 2

/-- Phase-local progress of the branch that handles `v`: the first
branch computes `convergenceRatio > 0 ? v / convergenceRatio : 0`, the
second computes `t = (v - convergenceRatio) / (card10Ratio -
convergenceRatio)`; the third branch has constant output. -/
def phaseLocalProgress (cr c10 v : ℚ) : ℚ :=
  if v ≤ cr then (if 0 < cr then v / cr else 0)
  else if v ≤ c10 then (v - cr) / (c10 - cr)
  else 0

/-- The scroll-influence value written by the handler, with JS
semantics for the division in the middle branch (`1 - t`). -/
def scrollInfluence (cr c10 v : ℚ) : JSVal :=
  if v ≤ cr then .fin (if 0 < cr then v / cr else 0)
  else if v ≤ c10 then jsSub (.fin 1) (jsDiv (v - cr) (c10 - cr))
  else .fin 0

/-- Claim C3 (counterexample): at the shared boundary of the table
[[0, 3/10), [3/10, 1]] the code does not resolve progress 3/10 to the
later phase: the `v <= convergenceRatio` test sends it to the earlier
branch, so the active phase index is 0, not 1, and the phase-local
progress is 1, not 0. -/
theorem boundary_tie_cex :
    ¬ (activeScrollBranch (3/10) 1 (3/10) = 1 ∧
       phaseLocalProgress (3/10) 1 (3/10) = 0) := by
  intro h
  have h1 := h.1
  norm_num [activeScrollBranch] at h1

/-- Claim C3 (amended): a progress value exactly on a shared phase
boundary is resolved deterministically to the earlier phase in table
order, as just-completed: active branch 0 with phase-local progress 1.
The handoff is continuous, since the written influence value at the tie
is 1, which the later branch would also produce at its local progress
0. -/
theorem boundary_tie (cr c10 v : ℚ) (hcr : 0 < cr) (hv : v = cr) :
    activeScrollBranch cr c10 v = 0 ∧ phaseLocalProgress cr c10 v = 1 ∧
    scrollInfluence cr c10 v = .fin 1 := by
  subst hv
  refine ⟨?_, ?_, ?_⟩ <;>
    simp [activeScrollBranch, phaseLocalProgress, scrollInfluence, le_refl,
      hcr, div_self (ne_of_gt hcr)]

/-- Claim C3 (witness): with convergenceRatio 3/10 and card10Ratio 1,
progress 3/10 falls to the earlier branch with local progress 1. -/
theorem boundary_tie_witness :
    activeScrollBranch (3/10) 1 (3/10) = 0 ∧
    phaseLocalProgress (3/10) 1 (3/10) = 1 ∧
    scrollInfluence (3/10) 1 (3/10) = .fin 1 :=
  boundary_tie (3/10) 1 (3/10) (by norm_num) rfl

/-- Claim C5 (counterexample): the boundaries are not non-decreasing and
inside [0,1] for every combination of measured quantities.  With
convergence height 100, scroll distance 100, gap width 300 and card
width 480 (gap wider than the scroll distance), card10Ratio = 56/25 > 1
while slideUpEndRatio is clamped to 1, so card10Ratio > slideUpEndRatio
and card10Ratio lies outside [0,1]. -/
theorem phase_bounds_cex :
    slideUpEndRatio 100 100 300 480 < card10Ratio 100 100 300 480 ∧
    1 < card10Ratio 100 100 300 480 := by
  norm_num [slideUpEndRatio, card10Ratio, cardFullRatio, cardEnterRatio,
    convergenceRatio, min_def]

/-- Claim C5 (amended): under the measurement invariant that the track
is wide enough for the gap and the first card (gapWidth + cardWidth ≤
scrollDistance, or scrollDistance = 0), the boundaries convergenceRatio
≤ cardEnterRatio ≤ card10Ratio ≤ slideUpEndRatio are non-decreasing and
all lie in [0,1]; the selecting if/else-if chain is total, so every
progress value falls in a defined phase. -/
theorem phase_bounds (ch s g c : ℚ) (hch : 0 ≤ ch) (hg : 0 ≤ g) (hc : 0 ≤ c)
    (hs : s = 0 ∨ (0 < s ∧ g + c ≤ s)) :
    0 ≤ convergenceRatio ch s ∧
    convergenceRatio ch s ≤ cardEnterRatio ch s g ∧
    cardEnterRatio ch s g ≤ card10Ratio ch s g c ∧
    card10Ratio ch s g c ≤ slideUpEndRatio ch s g c ∧
    slideUpEndRatio ch s g c ≤ 1 := by
  rcases hs with rfl | ⟨hs, hgc⟩
  · by_cases hch0 : 0 < ch
    · have h1 : convergenceRatio ch 0 = 1 := by
        simp [convergenceRatio, hch0, div_self (ne_of_gt hch0)]
      simp [cardEnterRatio, cardFullRatio, card10Ratio, slideUpEndRatio, h1]
    · have h0 : ch = 0 := le_antisymm (not_lt.mp hch0) hch
      subst h0
      simp [convergenceRatio, cardEnterRatio, cardFullRatio, card10Ratio,
        slideUpEndRatio]
      norm_num
  · have hts : 0 < ch + s := by linarith
    have hcr : convergenceRatio ch s = ch / (ch + s) := by
      simp [convergenceRatio, hts]
    have hce : cardEnterRatio ch s g
        = convergenceRatio ch s + (g / s) * (1 - convergenceRatio ch s) := by
      simp [cardEnterRatio, hs]
    have hcf : cardFullRatio ch s g c
        = convergenceRatio ch s + ((g + c) / s) * (1 - convergenceRatio ch s) := by
      simp [cardFullRatio, hs]
    have hcr0 : 0 ≤ convergenceRatio ch s := by
      rw [hcr]; exact div_nonneg hch hts.le
    have hcr1 : convergenceRatio ch s ≤ 1 := by
      rw [hcr]; exact (div_le_one hts).mpr (by linarith)
    have he : 0 ≤ 1 - convergenceRatio ch s := by linarith
    have hgs : 0 ≤ g / s := div_nonneg hg hs.le
    have hgcs : g / s ≤ (g + c) / s :=
      div_le_div_of_nonneg_right (by linarith) hs.le
    have hgc1 : (g + c) / s ≤ 1 := (div_le_one hs).mpr hgc
    have h2 : convergenceRatio ch s ≤ cardEnterRatio ch s g := by
      rw [hce]; nlinarith [mul_nonneg hgs he]
    have h3 : cardEnterRatio ch s g ≤ cardFullRatio ch s g c := by
      rw [hce, hcf]
      have := mul_le_mul_of_nonneg_right hgcs he
      linarith
    have h4 : cardFullRatio ch s g c ≤ 1 := by
      rw [hcf]
      have := mul_le_mul_of_nonneg_right hgc1 he
      nlinarith
    have h5 : cardEnterRatio ch s g ≤ card10Ratio ch s g c := by
      rw [card10Ratio]; nlinarith
    have h6 : card10Ratio ch s g c ≤ cardFullRatio ch s g c := by
      rw [card10Ratio]; nlinarith
    have h7 : card10Ratio ch s g c ≤ 1 := le_trans h6 h4
    have h8 : card10Ratio ch s g c ≤ slideUpEndRatio ch s g c := by
      rw [slideUpEndRatio]
      refine le_min h7 ?_
      nlinarith
    have h9 : slideUpEndRatio ch s g c ≤ 1 := by
      rw [slideUpEndRatio]; exact min_le_left _ _
    exact ⟨hcr0, h2, h5, h8, h9⟩

/-- Claim C5 (witness): convergence height 800, scroll distance 2000,
gap 300, card width 480 (consistent measurement: 300 + 480 ≤ 2000) give
a non-decreasing boundary chain inside [0,1]. -/
theorem phase_bounds_witness :
    0 ≤ convergenceRatio 800 2000 ∧
    convergenceRatio 800 2000 ≤ cardEnterRatio 800 2000 300 ∧
    cardEnterRatio 800 2000 300 ≤ card10Ratio 800 2000 300 480 ∧
    card10Ratio 800 2000 300 480 ≤ slideUpEndRatio 800 2000 300 480 ∧
    slideUpEndRatio 800 2000 300 480 ≤ 1 :=
  phase_bounds 800 2000 300 480 (by norm_num) (by norm_num) (by norm_num)
    (Or.inr ⟨by norm_num, by norm_num⟩)

/-- Claim C8: when the horizontal scroll distance is 0 the scatter
phase is zero-width (card10Ratio = convergenceRatio); the middle branch
of the chain, the only one dividing by the zero-width interval, is
unreachable for every progress value, and the influence written is
always a finite value (never NaN). -/
theorem zero_width_phase_skipped (ch g c v : ℚ) :
    card10Ratio ch 0 g c = convergenceRatio ch 0 ∧
    activeScrollBranch (convergenceRatio ch 0) (card10Ratio ch 0 g c) v ≠ 1 ∧
    ∃ q : ℚ, scrollInfluence (convergenceRatio ch 0) (card10Ratio ch 0 g c) v
      = .fin q := by
  have h10 : card10Ratio ch 0 g c = convergenceRatio ch 0 := by
    simp [card10Ratio, cardFullRatio, cardEnterRatio]
  refine ⟨h10, ?_, ?_⟩ <;> rw [h10] <;>
    by_cases hv : v ≤ convergenceRatio ch 0 <;>
    simp [activeScrollBranch, scrollInfluence, hv]

/-!
TimedRevealSequencer of `ArticleSection` (src/unnamed, ArticleSection
component).  Body blocks are revealed in order: the first block by a
timer derived from the title reveal, every later block by a timer of
`nextBlock.delay || 1000` milliseconds started at the previous block's
reveal.
-/

/-- One body block of `ArticleSection`: text lines, the declared delay
in milliseconds relative to the previous block's reveal, and the
highlight flag. -/
structure BodyBlock where
  lines : List String
  delay : ℕ
  isHighlight : Bool
deriving DecidableEq, Repr

/-- The delay actually used by the advance effect:
`nextBlock.delay || 1000`, so a declared delay of 0 (falsy in JS) is
replaced by 1000. -/
def effectiveDelay (b : BodyBlock) : ℕ :=
  if b.delay = 0 then 1000 else b.delay

/-- Reveal time of block `i` in milliseconds, relative to the reveal of
block 0: block `i+1` is revealed `effectiveDelay` of block `i+1` after
block `i`, per the advance effect of `ArticleSection`. -/
def revealTime (blocks : List BodyBlock) : ℕ → ℕ
  | 0 => 0
  | i + 1 =>
    revealTime blocks i +
      (match blocks.get? (i + 1) with
       | some b => effectiveDelay b
       | none => 0)

/-- Modelled from the claim wording, for comparison with `revealTime`:
each block revealed exactly its declared delay after the previous
block's reveal. -/
def declaredRevealTime (blocks : List BodyBlock) : ℕ → ℕ
  | 0 => 0
  | i + 1 =>
    declaredRevealTime blocks i +
      (match blocks.get? (i + 1) with
       | some b => b.delay
       | none => 0)

/-- `isFullyRevealed = bodyBlocks.length === 0 || visibleBlocks >=
bodyBlocks.length` (ArticleSection, line 273). -/
def isFullyRevealed (bodyBlocks : List BodyBlock) (visibleBlocks : ℕ) : Bool :=
  bodyBlocks.length == 0 || decide (bodyBlocks.length ≤ visibleBlocks)

/-- Whether the first-block effect schedules its timer: the code
returns early on `!isLineDone || !title || bodyBlocks.length === 0`. -/
def schedulesFirstBlockTimer (isLineDone : Bool) (title : String)
    (bodyBlocks : List BodyBlock) : Bool :=
  isLineDone && !(title == "") && !(bodyBlocks.length == 0)

/-- Whether the advance effect schedules its timer: the code returns
early on `visibleBlocks === 0 || visibleBlocks >= bodyBlocks.length`. -/
def schedulesAdvanceTimer (visibleBlocks : ℕ)
    (bodyBlocks : List BodyBlock) : Bool :=
  !(visibleBlocks == 0) && !(decide (bodyBlocks.length ≤ visibleBlocks))

/-- Whether the settle effect (the one-shot continue affordance)
schedules its timer: the code returns early on `!isFullyRevealed ||
bodyBlocks.length === 0`. -/
def schedulesSettleTimer (bodyBlocks : List BodyBlock)
    (visibleBlocks : ℕ) : Bool :=
  isFullyRevealed bodyBlocks visibleBlocks && !(bodyBlocks.length == 0)

/-- The three-block scenario of the claim: declared delays 0, 2000,
1500 with the last block highlighted. -/
def c4ScenarioBlocks : List BodyBlock :=
  [⟨["first"], 0, false⟩, ⟨["second"], 2000, false⟩, ⟨["third"], 1500, true⟩]

/-- Two blocks whose second block declares delay 0. -/
def c4CexBlocks : List BodyBlock :=
  [⟨["a"], 0, false⟩, ⟨["b"], 0, false⟩]

/-- Claim C4 (counterexample): a block is not always revealed exactly
its declared delay after the previous block.  With declared delays
[0, 0], the `delay || 1000` fallback reveals block 1 at 1000 ms, not at
its declared 0 ms. -/
theorem reveal_delay_cex :
    revealTime c4CexBlocks 1 = 1000 ∧ declaredRevealTime c4CexBlocks 1 = 0 ∧
    revealTime c4CexBlocks 1 ≠ declaredRevealTime c4CexBlocks 1 := by
  refine ⟨rfl, rfl, by decide⟩

/-- Claim C4 (amended): block 0 is revealed at t = 0 (the sequence
start) and every later block whose declared delay is nonzero is
revealed exactly that delay after its predecessor (a zero or missing
delay falls back to 1000 ms); in the scenario with delays
[0, 2000, 1500] the blocks are revealed at 0, 2000 and 3500 ms and the
sequence is fully revealed once all three blocks are visible. -/
theorem reveal_delay (blocks : List BodyBlock) (i : ℕ) (b : BodyBlock)
    (hb : blocks.get? (i + 1) = some b) (hnz : b.delay ≠ 0) :
    revealTime blocks (i + 1) = revealTime blocks i + b.delay ∧
    revealTime c4ScenarioBlocks 0 = 0 ∧
    revealTime c4ScenarioBlocks 1 = 2000 ∧
    revealTime c4ScenarioBlocks 2 = 3500 ∧
    isFullyRevealed c4ScenarioBlocks 3 = true := by
  refine ⟨?_, rfl, rfl, rfl, rfl⟩
  have hb2 : blocks[i + 1]? = some b := by simpa using hb
  simp [revealTime, hb2, effectiveDelay, hnz]

/-- Claim C4 (witness): in the scenario list, block 1 (declared delay
2000) is revealed exactly 2000 ms after block 0. -/
theorem reveal_delay_witness :
    revealTime c4ScenarioBlocks 1 = revealTime c4ScenarioBlocks 0 + 2000 :=
  (reveal_delay c4ScenarioBlocks 0 ⟨["second"], 2000, false⟩ rfl
    (by decide)).1

/-- Claim C9: with zero body blocks the sequence is fully revealed
immediately (at the initial `visibleBlocks = 0`), and none of the
timer-scheduling effects ever schedules a timer for it. -/
theorem empty_sequence_terminal :
    isFullyRevealed [] 0 = true ∧
    (∀ (isLineDone : Bool) (title : String),
      schedulesFirstBlockTimer isLineDone title [] = false) ∧
    (∀ visibleBlocks : ℕ, schedulesAdvanceTimer visibleBlocks [] = false) ∧
    (∀ visibleBlocks : ℕ, schedulesSettleTimer [] visibleBlocks = false) := by
  refine ⟨rfl, ?_, ?_, ?_⟩
  · intro d t; simp [schedulesFirstBlockTimer]
  · intro v; simp [schedulesAdvanceTimer]
  · intro v; simp [schedulesSettleTimer]

/-!
`ScrambleText.runScramble`
(src/src/components/kinetic-typography/ScrambleText.jsx, lines 55-92).
Each animation frame at elapsed time `e` builds a display string: a
settled prefix of the target text plus random characters for the
unsettled positions; once `elapsed >= holdDuration + duration` the
frame writes the target text itself and stops rescheduling.
-/

/-- `settledCount = Math.floor(progress * targetText.length)` with
`progress = Math.min(Math.max(0, elapsed - holdDuration) / duration,
1)`; `none` models the NaN produced when `duration = 0` and the
settling time is 0. -/
def settledCount (len : ℕ) (hold dur elapsed : ℚ) : Option ℤ :=
  let settling : ℚ := max 0 (elapsed - hold)
  if dur = 0 then (if 0 < settling then some len else none)
  else some ⌊min (settling / dur) 1 * len⌋

/-- JS `i < settledCount` where the count may be NaN (always false). -/
def ltCount (i : ℕ) : Option ℤ → Bool
  | some k => decide ((i : ℤ) < k)
  | none => false

/-- The string built by one animation frame: positions below the
settled count take the target character (`targetText[i] || ''` is empty
past the target), remaining positions below the target length take a
random character from the charset, and positions beyond both contribute
nothing. -/
def scrambleResult (target : List Char) (fromLength : ℕ)
    (hold dur elapsed : ℚ) (rand : ℕ → Char) : List Char :=
  (List.range (max fromLength target.length)).filterMap fun i =>
    if ltCount i (settledCount target.length hold dur elapsed) then
      target.get? i
    else if i < target.length then some (rand i) else none

/-- The text displayed by the frame at `elapsed`: while `elapsed <
holdDuration + duration` it is the scramble frame result (and another
frame is scheduled); at or past the total duration the code writes the
target text and finishes. -/
def runScrambleDisplay (target : List Char) (fromLength : ℕ)
    (hold dur elapsed : ℚ) (rand : ℕ → Char) : List Char :=
  if elapsed < hold + dur then
    scrambleResult target fromLength hold dur elapsed rand
  else target

/-- Claim C10: once the total animation time `holdDuration + duration`
has elapsed the displayed text is exactly the target text, and is
therefore independent of the random character stream: two runs with the
same text, duration and holdDuration end with the same display. -/
theorem scramble_final_text (target : List Char) (fromLength : ℕ)
    (hold dur elapsed : ℚ) (r1 r2 : ℕ → Char)
    (hdone : hold + dur ≤ elapsed) :
    runScrambleDisplay target fromLength hold dur elapsed r1 = target ∧
    runScrambleDisplay target fromLength hold dur elapsed r2
      = runScrambleDisplay target fromLength hold dur elapsed r1 := by
  have h : ¬ elapsed < hold + dur := not_lt.mpr hdone
  constructor <;> simp [runScrambleDisplay, h]

/-- Claim C10 (witness): at elapsed 800 with holdDuration 0 and
duration 800, the display equals the target for two different random
streams. -/
theorem scramble_final_text_witness :
    runScrambleDisplay ['A', 'B'] 0 0 800 800 (fun _ => 'X') = ['A', 'B'] ∧
    runScrambleDisplay ['A', 'B'] 0 0 800 800 (fun _ => 'Y')
      = runScrambleDisplay ['A', 'B'] 0 0 800 800 (fun _ => 'X') :=
  scramble_final_text ['A', 'B'] 0 0 800 800
    (fun _ => 'X') (fun _ => 'Y') (by norm_num)
